import Mathlib

/-!
Verification development for the `janis-templates` repository
(`janis_templates/pawsey.py`, `janis_templates/petermac.py`,
`janis_templates/petermacdisconnected.py`).

The Python code is shallowly embedded: each relevant function or method
body is translated into an executable Lean definition.  Python values of
type `Union[str, List[str]]` become `PyStrOrList`; Python `None` becomes
`Option.none`; Python truthiness of optional strings/ints (where `None`,
`""` and `0` are falsy) is made explicit at each use site, following the
source.  Machine integers in the source are Python arbitrary-precision
non-negative quantities (wall times in minutes, memory in MB), embedded
as `Nat`; Python `str(n)` is embedded as `Nat.repr`.
-/

/-- Python `Union[str, List[str]]` values, as used for `queues`, `command`
and the `seqrun` input value in the source. -/
inductive PyStrOrList where
  | str : String → PyStrOrList
  | list : List String → PyStrOrList
deriving DecidableEq

/-- Embeds the recurring Python idiom `sep.join(q) if isinstance(q, list) else q`
(`pawsey.py` lines 96-97, `petermac.py` lines 107-108,
`petermacdisconnected.py` lines 43-44). -/
def joinIfList (sep : String) : PyStrOrList → String
  | .list l => String.intercalate sep l
  | .str s => s

/-- Embeds `os.path.join(a, b)` for POSIX paths with two arguments, as used
for `os.path.join(logsdir, "slurm.stdout")` and
`os.path.join(logsdir, "slurm.stderr")` in all three `submit_detatched_resume`
methods. -/
def osPathJoin (a b : String) : String :=
  if b.startsWith "/" then b
  else if a = "" || a.endsWith "/" then a ++ b
  else a ++ "/" ++ b

/-- Embeds Python `x or d` for an optional non-negative integer `x`
(`None` and `0` are falsy), as in `self.max_workflow_time or 14400`
(`petermac.py` line 117) and `self.max_workflow_time or 1440`
(`petermacdisconnected.py` line 53). -/
def pyOrNat (x : Option Nat) (d : Nat) : Nat :=
  match x with
  | none => d
  | some n => if n = 0 then d else n

/-- Embeds Python `x or d` for an optional string `x` (`None` and `""` are
falsy), as in `self.submission_queue or jq` (`pawsey.py` line 101). -/
def pyOrStr (x : Option String) (d : String) : String :=
  match x with
  | none => d
  | some s => if s = "" then d else s

/-- The `notifications` member of the assistant configuration object, of
which `submit_detatched_resume` reads only the `email` field
(`petermac.py` lines 127-131).  `email` is an optional string; Python
treats `None` and `""` as falsy. -/
structure NotificationsConfig where
  email : Option String
deriving DecidableEq

/-- The assistant configuration object passed to
`PeterMacTemplate.submit_detatched_resume` as `config`; only
`config.notifications` is read there (`petermac.py` lines 126-131). -/
structure JanisConfig where
  notifications : Option NotificationsConfig
deriving DecidableEq

/-- The fields of a constructed `PeterMacTemplate` that its
`submit_detatched_resume` method reads: `self.send_job_emails` (set by the
base-class initialiser from the `send_job_emails` argument),
`self.max_workflow_time` and `self.janis_memory_mb` (`petermac.py`
lines 69-70). -/
structure PeterMacState where
  send_job_emails : Bool
  max_workflow_time : Option Nat
  janis_memory_mb : Option Nat
deriving DecidableEq

/-- Embeds `petermac.py` lines 124-132: the `--mail-user`/`--mail-type`
extension happens exactly when
`self.send_job_emails and config and config.notifications and
config.notifications.email` is truthy, and then carries
`config.notifications.email`. -/
def peterMacMailArgs (send_job_emails : Bool) (config : Option JanisConfig) : List String :=
  match config with
  | none => []
  | some cfg =>
    match cfg.notifications with
    | none => []
    | some notifs =>
      match notifs.email with
      | none => []
      | some e =>
        if send_job_emails && !(e == "") then ["--mail-user", e, "--mail-type", "END"]
        else []

/-- Embeds `petermac.py` lines 134-135: the `--mem` extension happens
exactly when `self.janis_memory_mb` is truthy, and then carries
`str(self.janis_memory_mb)`. -/
def peterMacMemArgs (janis_memory_mb : Option Nat) : List String :=
  match janis_memory_mb with
  | none => []
  | some m => if m ≠ 0 then ["--mem", Nat.repr m] else []

/-- Embeds the `newcommand` argument vector built by
`PeterMacTemplate.submit_detatched_resume` (`petermac.py` lines 106-137):
`q = "janis"` is a `str`, so `jq` is `q` itself; `jc` joins a list command
with single spaces; the base vector is extended with the optional mail and
memory blocks and finally `["--wrap", jc]`. -/
def peterMacNewCommand (st : PeterMacState) (wid : String) (command : PyStrOrList)
    (logsdir : String) (config : Option JanisConfig) : List String :=
  ["sbatch",
   "-p",
   joinIfList ", " (.str "janis"),
   "-J",
   "janis-" ++ wid,
   "--time",
   Nat.repr (pyOrNat st.max_workflow_time 14400),
   "-o",
   osPathJoin logsdir "slurm.stdout",
   "-e",
   osPathJoin logsdir "slurm.stderr"]
  ++ peterMacMailArgs st.send_job_emails config
  ++ peterMacMemArgs st.janis_memory_mb
  ++ ["--wrap", joinIfList " " command]

/-- The fields of a constructed `PawseyDisconnectedTemplate` read by its
`submit_detatched_resume` method: `self.queues` (a string or list of
strings) and `self.submission_queue` (`pawsey.py` lines 89, 95, 101). -/
structure PawseyDiscState where
  queues : PyStrOrList
  submission_queue : Option String
deriving DecidableEq

/-- Embeds the `newcommand` argument vector built by
`PawseyDisconnectedTemplate.submit_detatched_resume` (`pawsey.py`
lines 95-110), with `SUBMISSION_LENGTH = "4-00:00:00"` (`pawsey.py`
line 21) as the `--time` value and `self.submission_queue or jq` as the
partition. -/
def pawseyNewCommand (st : PawseyDiscState) (wid : String) (command : PyStrOrList)
    (logsdir : String) : List String :=
  ["sbatch",
   "-p",
   pyOrStr st.submission_queue (joinIfList ", " st.queues),
   "-J",
   "janis-" ++ wid,
   "--time",
   "4-00:00:00",
   "-o", osPathJoin logsdir "slurm.stdout",
   "-e", osPathJoin logsdir "slurm.stderr",
   "--wrap",
   joinIfList " " command]

/-- Embeds the `newcommand` argument vector built by
`PeterMacDisconnectedTemplate.submit_detatched_resume`
(`petermacdisconnected.py` lines 42-58): `q = "janis"` is a `str`, the
`--time` value is `str(self.max_workflow_time or 1440)`. -/
def peterMacDiscNewCommand (max_workflow_time : Option Nat) (wid : String)
    (command : PyStrOrList) (logsdir : String) : List String :=
  ["sbatch",
   "-p",
   joinIfList ", " (.str "janis"),
   "-J",
   "janis-" ++ wid,
   "--time",
   Nat.repr (pyOrNat max_workflow_time 1440),
   "-o", osPathJoin logsdir "slurm.stdout",
   "-e", osPathJoin logsdir "slurm.stderr",
   "--wrap",
   joinIfList " " command]

/-- Embeds the `singload` computation shared by `PawseyTemplate.__init__`
(`pawsey.py` lines 47-49) and `PeterMacTemplate.__init__` (`petermac.py`
lines 57-59): start from `"module load singularity"` and append
`"/" + str(version)` when the version is truthy (`None` and `""` are
falsy). -/
def singload (version : Option String) : String :=
  match version with
  | none => "module load singularity"
  | some v =>
    if v = "" then "module load singularity"
    else "module load singularity" ++ "/" ++ v

/-- Embeds Python `str` applied to an `Optional[str]` value inside an
f-string: `None` renders as `"None"`, a string renders as itself
(`petermac.py` lines 72-76). -/
def pyStrOpt : Option String → String
  | none => "None"
  | some s => s

/-- `PeterMacTemplate.expected_email_format = {None, "molpath"}`
(`petermac.py` line 23); the Python set is embedded as a list in insertion
order. -/
def expected_email_format : List (Option String) := [none, some "molpath"]

/-- The `valid_options_formatted` string of `petermac.py` lines 72-74:
`", ".join(f"'{o}'" for o in PeterMacTemplate.expected_email_format)`. -/
def validOptionsFormatted : String :=
  String.intercalate ", "
    (expected_email_format.map (fun o => "\x27" ++ pyStrOpt o ++ "\x27"))

/-- The exception message raised by `PeterMacTemplate.__init__` for an
invalid `email_format` (`petermac.py` lines 75-77). -/
def emailFormatErrorMessage (email_format : Option String) : String :=
  "Argument email_format: invalid choice: \x27" ++ pyStrOpt email_format
    ++ "\x27 (choose from " ++ validOptionsFormatted ++ ")"

/-- Embeds the `email_format` validation of `PeterMacTemplate.__init__`
(`petermac.py` lines 71-78): raise when the value is not in
`expected_email_format`, otherwise continue. -/
def validateEmailFormat (email_format : Option String) : Except String Unit :=
  if email_format ∈ expected_email_format then Except.ok ()
  else Except.error (emailFormatErrorMessage email_format)

/-- A parameter of a Python function signature: its name and whether it
carries a default value. -/
structure PyParam where
  name : String
  hasDefault : Bool
deriving DecidableEq

/-- Embeds CPython keyword-argument binding for a call that passes keyword
arguments only (every `super().__init__(...)` call modelled here is
keyword-only): the call raises `TypeError` when some keyword is not a
parameter name, or when some parameter without a default is not bound. -/
def bindKwargs (params : List PyParam) (kwargs : List String) : Except String Unit :=
  match kwargs.find? (fun k => !(params.any (fun p => p.name == k))) with
  | some k => Except.error ("unexpected keyword argument \x27" ++ k ++ "\x27")
  | none =>
    match (params.filter (fun p => !p.hasDefault)).find? (fun p => !(kwargs.contains p.name)) with
    | some p => Except.error ("missing a required argument: \x27" ++ p.name ++ "\x27")
    | none => Except.ok ()

/-- The parameters (after `self`) of `PawseyTemplate.__init__`
(`pawsey.py` lines 23-34); only `containerDir` lacks a default. -/
def pawseyTemplateInitParams : List PyParam :=
  [⟨"containerDir", false⟩,
   ⟨"executionDir", true⟩,
   ⟨"queues", true⟩,
   ⟨"singularityVersion", true⟩,
   ⟨"catchSlurmErrors", true⟩,
   ⟨"sendSlurmEmails", true⟩,
   ⟨"singularityBuildInstructions", true⟩,
   ⟨"max_cores", true⟩,
   ⟨"max_ram", true⟩]

/-- The parameters (after `self`) of `PeterMacTemplate.__init__`
(`petermac.py` lines 25-39); all carry defaults. -/
def peterMacTemplateInitParams : List PyParam :=
  [⟨"intermediate_execution_dir", true⟩,
   ⟨"container_dir", true⟩,
   ⟨"queues", true⟩,
   ⟨"singularity_version", true⟩,
   ⟨"send_job_emails", true⟩,
   ⟨"catch_slurm_errors", true⟩,
   ⟨"singularity_build_instructions", true⟩,
   ⟨"max_cores", true⟩,
   ⟨"max_ram", true⟩,
   ⟨"max_workflow_time", true⟩,
   ⟨"janis_memory_mb", true⟩,
   ⟨"email_format", true⟩]

/-- The keyword names passed by `PawseyDisconnectedTemplate.__init__` to
`super().__init__` (`pawsey.py` line 90): only `executionDir`. -/
def pawseyDisconnectedSuperInitKwargs : List String := ["executionDir"]

/-- The keyword names passed by `PeterMacDisconnectedTemplate.__init__` to
`super().__init__` (`petermacdisconnected.py` lines 26-34). -/
def peterMacDisconnectedSuperInitKwargs : List String :=
  ["executionDir", "queues", "containerDir", "singularityVersion",
   "catchSlurmErrors", "sendSlurmEmails", "singularityBuildInstructions"]

/-- The explicitly named keywords passed by
`PawseyDisconnectedTemplate.submit_detatched_resume` and
`PeterMacDisconnectedTemplate.submit_detatched_resume` to
`super().__init__` after building `newcommand` (`pawsey.py` line 111,
`petermacdisconnected.py` line 59), besides forwarded `**kwargs`. -/
def disconnectedSubmitSuperCallKwargs : List String :=
  ["wid", "command", "capture_output"]

/-- Which base-class member a `submit_detatched_resume` override invokes
after building its argument vector. -/
inductive DelegationTarget where
  | baseSubmitDetatchedResume
  | baseConstructor
deriving DecidableEq

/-- A delegated call: its target and the `capture_output` value passed. -/
structure Delegation where
  target : DelegationTarget
  captureOutput : Bool
deriving DecidableEq

/-- `PeterMacTemplate.submit_detatched_resume` ends with
`super().submit_detatched_resume(..., capture_output=True, ...)`
(`petermac.py` lines 139-146). -/
def peterMacSubmitDelegation : Delegation :=
  ⟨.baseSubmitDetatchedResume, true⟩

/-- `PawseyDisconnectedTemplate.submit_detatched_resume` ends with
`super().__init__(wid=wid, command=newcommand, capture_output=True, **kwargs)`
(`pawsey.py` line 111): it invokes the base-class constructor, not the
base-class submission method. -/
def pawseyDiscSubmitDelegation : Delegation :=
  ⟨.baseConstructor, true⟩

/-- `PeterMacDisconnectedTemplate.submit_detatched_resume` ends with
`super().__init__(wid=wid, command=newcommand, capture_output=True, **kwargs)`
(`petermacdisconnected.py` line 59): it invokes the base-class
constructor, not the base-class submission method. -/
def peterMacDiscSubmitDelegation : Delegation :=
  ⟨.baseConstructor, true⟩

/-- `sub` occurs as a contiguous substring of `s`, read off the underlying
character lists. -/
def strContains (s sub : String) : Prop := sub.data <:+: s.data

/-- The externally defined `TaskStatus` as consumed read-only by the email
renderer: whether it is final (`is_in_final_state()`), its colour mapping
(`to_hexcolor()`) and its display form (`str(status)`). -/
structure TaskStatus where
  is_in_final_state : Bool
  to_hexcolor : String
  display : String
deriving DecidableEq

/-- A tagged workflow input (`i.tag`, `i.value`) from `run.inputs`
(`petermac.py` line 163). -/
structure WorkflowInput where
  tag : String
  value : PyStrOrList
deriving DecidableEq

/-- A job of a run, with its name and status (`petermac.py`
lines 172-177). -/
structure JobModel where
  name : String
  status : TaskStatus
deriving DecidableEq

/-- The externally defined `RunModel` fields consumed by
`prepare_run_status_table`: the tagged inputs and the job list. -/
structure RunModel where
  inputs : List WorkflowInput
  jobs : List JobModel
deriving DecidableEq

/-- Embeds `PeterMacTemplate.table_style_gen` (`petermac.py`
lines 154-158).  The Python `kwargs` dict is embedded as an association
list in keyword order; `kwargs.update({"border": ..., "padding": ...})`
appends these two keys, which call sites never pass, so insertion order
puts them last. -/
def table_style_gen (kwargs : List (String × String)) : String :=
  let kwargs2 := kwargs ++ [("border", "1px solid black"), ("padding", "8px")]
  let elsjoined := String.intercalate " " (kwargs2.map (fun kv => kv.1 ++ ": " ++ kv.2 ++ ";"))
  "style=\"" ++ elsjoined ++ "\""

/-- `skip_stepids = {}` (`petermac.py` line 166): the empty collection of
step identifiers to skip. -/
def skip_stepids : List String := []

/-- One row of the job-status table (`petermac.py` lines 172-175),
transcribed with the exact whitespace of the f-string. -/
def jobRowString (job : JobModel) : String :=
  "<tr>\n                    <td "
    ++ table_style_gen [("color", job.status.to_hexcolor)]
    ++ "\">" ++ job.name
    ++ "</td>\n                    <td "
    ++ table_style_gen [("color", job.status.to_hexcolor)]
    ++ ">" ++ job.status.display
    ++ "</td>\n                </tr>"

/-- The job-status table appended for final states (`petermac.py`
lines 171-193). -/
def jobsTableString (borderstyle : String) (run : RunModel) : String :=
  let rows := String.intercalate "\n"
    ((run.jobs.filter (fun job => !(skip_stepids.contains job.name))).map jobRowString)
  "\n                <table style=\"border-collapse: collapse; border: 1px solid black\">\n                    <thead>\n                        <tr>\n                            <th "
    ++ borderstyle ++ ">#Sample</th>\n                            <th "
    ++ borderstyle ++ ">Janis</th>\n                        </tr>\n                    </thead>\n                    <tbody>\n                    "
    ++ rows
    ++ "\n                    </tbody>\n                </table>"

/-- The dict built as `inputs = {i.tag: i.value for i in run.inputs}`
(`petermac.py` line 163): later duplicates overwrite, so lookup returns
the value of the last input with the given tag. -/
def inputsGet (inputs : List WorkflowInput) (k : String) : Option PyStrOrList :=
  (inputs.reverse.find? (fun i => i.tag == k)).map (fun i => i.value)

/-- One row of the per-sequencing-run table (`petermac.py`
lines 199-202). -/
def seqRowString (status : TaskStatus) (s : String) : String :=
  "<tr>\n                    <td "
    ++ table_style_gen []
    ++ "\">" ++ s
    ++ "</td>\n                    <td "
    ++ table_style_gen []
    ++ ">" ++ status.display
    ++ "</td>\n                </tr>"

/-- The per-sequencing-run table appended when the inputs contain a
`seqrun` entry (`petermac.py` lines 196-217). -/
def seqrunTableString (borderstyle : String) (status : TaskStatus)
    (seqrun : PyStrOrList) : String :=
  let iterseqrun := match seqrun with
    | .str s => [s]
    | .list l => l
  let rows := String.intercalate "\n" (iterseqrun.map (seqRowString status))
  "<table style=\"border-collapse: collapse; border: 1px solid black\">\n                    <thead>\n                        <tr>\n                            <th "
    ++ borderstyle ++ ">#Run</th>\n                            <th "
    ++ borderstyle ++ ">Janis</th>\n                        </tr>\n                    </thead>\n                    <tbody>\n                    "
    ++ rows
    ++ "\n                    </tbody>\n                </table>"

/-- Embeds `PeterMacTemplate.prepare_run_status_table` (`petermac.py`
lines 160-222): up to two components, a header inserted in front when any
component exists, joined with newlines (the empty join yields `""`). -/
def prepare_run_status_table (status : TaskStatus) (run : RunModel) : String :=
  let borderstyle := table_style_gen []
  let components : List String :=
    (if status.is_in_final_state then [jobsTableString borderstyle run] else [])
    ++ (match inputsGet run.inputs "seqrun" with
        | some seqrun => [seqrunTableString borderstyle status seqrun]
        | none => [])
  let components := if 0 < components.length
    then "<h3>Run status</h3>" :: components else components
  String.intercalate "\n" components

theorem strData_append (a b : String) : (a ++ b).data = a.data ++ b.data := rfl

theorem pair_step {c d x : String} {xs : List String}
    (h : [c, d] <:+: x :: xs) :
    (x = c ∧ xs.head? = some d) ∨ [c, d] <:+: xs := by
  obtain ⟨s, t, hst⟩ := h
  cases s with
  | nil =>
    simp only [List.nil_append, List.cons_append] at hst
    injection hst with h1 h2
    left
    exact ⟨h1.symm, by rw [← h2]; rfl⟩
  | cons a s' =>
    simp only [List.cons_append] at hst
    injection hst with h1 h2
    right
    exact ⟨s', t, h2⟩

theorem pair_step_ne_fst {c d x : String} {xs : List String}
    (h : [c, d] <:+: x :: xs) (hx : x ≠ c) : [c, d] <:+: xs :=
  (pair_step h).resolve_left (fun hl => hx hl.1)

theorem pair_step_ne_snd {c d x : String} {xs : List String}
    (h : [c, d] <:+: x :: xs) (hd : xs.head? ≠ some d) : [c, d] <:+: xs :=
  (pair_step h).resolve_left (fun hl => hd hl.2)

theorem head_cons_ne {y d : String} {rest : List String} (h : y ≠ d) :
    (y :: rest).head? ≠ some d := by
  simp [h]

theorem pair_not_singleton {c d x : String} : ¬ [c, d] <:+: [x] := by
  intro h
  rcases pair_step h with ⟨_, h2⟩ | h2
  · simp at h2
  · obtain ⟨s, t, hst⟩ := h2
    simp at hst

theorem pair_of_quad {a b c d : String} {l : List String}
    (h : [a, b, c, d] <:+: l) : [c, d] <:+: l := by
  obtain ⟨s, t, hst⟩ := h
  refine ⟨s ++ [a, b], t, ?_⟩
  simpa [List.append_assoc] using hst

theorem digitChar_isDigit : ∀ n : Nat, n < 10 → (Nat.digitChar n).isDigit = true := by
  decide

theorem toDigitsCore_succ (b f n : Nat) (ds : List Char) :
    Nat.toDigitsCore b (f + 1) n ds =
      if n / b = 0 then Nat.digitChar (n % b) :: ds
      else Nat.toDigitsCore b f (n / b) (Nat.digitChar (n % b) :: ds) := rfl

theorem toDigitsCore_isDigit :
    ∀ (fuel n : Nat) (ds : List Char),
      (∀ c ∈ ds, c.isDigit = true) →
      ∀ c ∈ Nat.toDigitsCore 10 fuel n ds, c.isDigit = true := by
  intro fuel
  induction fuel with
  | zero =>
    intro n ds hds
    simpa [Nat.toDigitsCore] using hds
  | succ f ih =>
    intro n ds hds c hc
    rw [toDigitsCore_succ] at hc
    have hmem : ∀ c ∈ Nat.digitChar (n % 10) :: ds, c.isDigit = true := by
      intro c' hc'
      rcases List.mem_cons.mp hc' with rfl | hm
      · exact digitChar_isDigit _ (Nat.mod_lt _ (by decide))
      · exact hds _ hm
    by_cases h0 : n / 10 = 0
    · rw [if_pos h0] at hc
      exact hmem _ hc
    · rw [if_neg h0] at hc
      exact ih (n / 10) _ hmem c hc

theorem natRepr_isDigit (n : Nat) : ∀ c ∈ (Nat.repr n).data, c.isDigit = true := by
  intro c hc
  exact toDigitsCore_isDigit (n + 1) n [] (by simp) c hc

theorem natRepr_ne {s : String} (c : Char) (hc : c ∈ s.data)
    (hnd : c.isDigit = false) (n : Nat) : Nat.repr n ≠ s := by
  intro h
  have hd := natRepr_isDigit n c (by rw [h]; exact hc)
  rw [hd] at hnd
  exact Bool.noConfusion hnd

theorem head_ne_natRepr {x : String} {rest : List String} (c : Char)
    (hc : c ∈ x.data) (hnd : c.isDigit = false) (m : Nat) :
    (x :: rest).head? ≠ some (Nat.repr m) := by
  intro h
  rw [List.head?_cons] at h
  injection h with h
  exact natRepr_ne c hc hnd m h.symm

theorem peterMacMailArgs_cases (s : Bool) (config : Option JanisConfig) :
    peterMacMailArgs s config = [] ∨
    ∃ e, peterMacMailArgs s config = ["--mail-user", e, "--mail-type", "END"] := by
  rcases config with _ | ⟨_ | ⟨_ | e⟩⟩
  · exact Or.inl rfl
  · exact Or.inl rfl
  · exact Or.inl rfl
  · by_cases hcond : (s && !(e == "")) = true
    · exact Or.inr ⟨e, by simp [peterMacMailArgs, hcond]⟩
    · exact Or.inl (by simp [peterMacMailArgs, hcond])

theorem peterMacMailArgs_nil_of (s : Bool) (config : Option JanisConfig)
    (h : ¬ (s = true ∧ ∃ cfg notifs e, config = some cfg ∧
      cfg.notifications = some notifs ∧ notifs.email = some e ∧ e ≠ "")) :
    peterMacMailArgs s config = [] := by
  rcases config with _ | ⟨_ | ⟨_ | e⟩⟩
  · rfl
  · rfl
  · rfl
  · by_cases hs : s = true
    · by_cases he : e = ""
      · simp [peterMacMailArgs, he]
      · exact absurd ⟨hs, ⟨_, _, e, rfl, rfl, rfl, he⟩⟩ h
    · simp [peterMacMailArgs, Bool.and_eq_true, hs]

theorem peterMacMemArgs_cases (m : Option Nat) :
    peterMacMemArgs m = [] ∨ ∃ v, peterMacMemArgs m = ["--mem", Nat.repr v] := by
  rcases m with _ | v
  · exact Or.inl rfl
  · by_cases hv : v = 0
    · exact Or.inl (by simp [peterMacMemArgs, hv])
    · exact Or.inr ⟨v, by simp [peterMacMemArgs, hv]⟩

theorem peterMacMemArgs_nil_of (m : Option Nat)
    (h : ¬ ∃ v, m = some v ∧ v ≠ 0) : peterMacMemArgs m = [] := by
  rcases m with _ | v
  · rfl
  · by_cases hv : v = 0
    · simp [peterMacMemArgs, hv]
    · exact absurd ⟨v, rfl, hv⟩ h

/-- C5: in the argument vector built by
`PeterMacTemplate.submit_detatched_resume`, the mail notification tokens
(`"--mail-user"`, the email address, `"--mail-type"`, `"END"`) appear, as
a contiguous block in this order, if and only if the template's send-email
flag is true and a notification configuration object with a non-empty
email address is supplied; when they appear, the email token is exactly
the configured notification email address. -/
theorem peterMac_mail_block_iff (st : PeterMacState) (wid : String)
    (command : PyStrOrList) (logsdir : String) (config : Option JanisConfig) :
    ((∃ e, ["--mail-user", e, "--mail-type", "END"] <:+:
        peterMacNewCommand st wid command logsdir config) ↔
      (st.send_job_emails = true ∧
       ∃ cfg notifs e, config = some cfg ∧ cfg.notifications = some notifs ∧
         notifs.email = some e ∧ e ≠ "")) ∧
    (∀ cfg notifs e, st.send_job_emails = true → config = some cfg →
      cfg.notifications = some notifs → notifs.email = some e → e ≠ "" →
      ["--mail-user", e, "--mail-type", "END"] <:+:
        peterMacNewCommand st wid command logsdir config) := by
  have key : ∀ cfg notifs e, st.send_job_emails = true → config = some cfg →
      cfg.notifications = some notifs → notifs.email = some e → e ≠ "" →
      ["--mail-user", e, "--mail-type", "END"] <:+:
        peterMacNewCommand st wid command logsdir config := by
    intro cfg notifs e hs hc hn hm he
    subst hc
    obtain ⟨cn⟩ := cfg
    obtain rfl : cn = some notifs := hn
    obtain ⟨nem⟩ := notifs
    obtain rfl : nem = some e := hm
    have hbe : (e == "") = false := beq_eq_false_iff_ne.mpr he
    refine ⟨["sbatch", "-p", joinIfList ", " (.str "janis"), "-J", "janis-" ++ wid,
      "--time", Nat.repr (pyOrNat st.max_workflow_time 14400), "-o",
      osPathJoin logsdir "slurm.stdout", "-e", osPathJoin logsdir "slurm.stderr"],
      peterMacMemArgs st.janis_memory_mb ++ ["--wrap", joinIfList " " command], ?_⟩
    simp [peterMacNewCommand, peterMacMailArgs, hs, hbe]
  constructor
  · constructor
    · intro ⟨e, hinf⟩
      by_contra hnc
      have hnil : peterMacMailArgs st.send_job_emails config = [] :=
        peterMacMailArgs_nil_of _ _ hnc
      have h2 : ["--mail-type", "END"] <:+:
          peterMacNewCommand st wid command logsdir config := pair_of_quad hinf
      simp only [peterMacNewCommand, hnil, joinIfList, List.cons_append,
        List.nil_append, List.append_nil] at h2
      have h2 := pair_step_ne_fst h2 (by decide)
      have h2 := pair_step_ne_fst h2 (by decide)
      have h2 := pair_step_ne_fst h2 (by decide)
      have h2 := pair_step_ne_fst h2 (by decide)
      have h2 := pair_step_ne_snd h2 (head_cons_ne (by decide))
      have h2 := pair_step_ne_fst h2 (by decide)
      have h2 := pair_step_ne_snd h2 (head_cons_ne (by decide))
      have h2 := pair_step_ne_fst h2 (by decide)
      have h2 := pair_step_ne_snd h2 (head_cons_ne (by decide))
      have h2 := pair_step_ne_fst h2 (by decide)
      rcases peterMacMemArgs_cases st.janis_memory_mb with hm | ⟨v, hm⟩
      · rw [hm] at h2
        simp only [List.nil_append] at h2
        have h2 := pair_step_ne_snd h2 (head_cons_ne (by decide))
        have h2 := pair_step_ne_fst h2 (by decide)
        exact pair_not_singleton h2
      · rw [hm] at h2
        simp only [List.cons_append, List.nil_append] at h2
        have h2 := pair_step_ne_snd h2 (head_cons_ne (by decide))
        have h2 := pair_step_ne_fst h2 (by decide)
        have h2 := pair_step_ne_snd h2 (head_cons_ne (by decide))
        have h2 := pair_step_ne_fst h2 (by decide)
        exact pair_not_singleton h2
    · rintro ⟨hs, cfg, notifs, e, hc, hn, hm, he⟩
      exact ⟨e, key cfg notifs e hs hc hn hm he⟩
  · exact key

/-- C5 witness: at a concrete send-email state and configuration, the mail
block with the configured address is in the built vector. -/
theorem peterMac_mail_block_iff_witness :
    ["--mail-user", "user@petermac.org", "--mail-type", "END"] <:+:
      peterMacNewCommand ⟨true, none, none⟩ "w1" (.list ["run.sh"]) "/logs"
        (some ⟨some ⟨some "user@petermac.org"⟩⟩) :=
  (peterMac_mail_block_iff ⟨true, none, none⟩ "w1" (.list ["run.sh"]) "/logs"
    (some ⟨some ⟨some "user@petermac.org"⟩⟩)).2 _ _ _ rfl rfl rfl rfl (by decide)

/-- C6: in the argument vector built by
`PeterMacTemplate.submit_detatched_resume`, the memory tokens (`"--mem"`
followed by the decimal rendering of the configured memory override in MB)
appear, as a contiguous block, if and only if the per-deployment memory
override value is set (a non-zero value, Python truthiness); when set to
`m`, the block is exactly `["--mem", str(m)]`. -/
theorem peterMac_mem_block_iff (st : PeterMacState) (wid : String)
    (command : PyStrOrList) (logsdir : String) (config : Option JanisConfig) :
    ((∃ m : Nat, ["--mem", Nat.repr m] <:+:
        peterMacNewCommand st wid command logsdir config) ↔
      (∃ m, st.janis_memory_mb = some m ∧ m ≠ 0)) ∧
    (∀ m, st.janis_memory_mb = some m → m ≠ 0 →
      ["--mem", Nat.repr m] <:+:
        peterMacNewCommand st wid command logsdir config) := by
  have key : ∀ m, st.janis_memory_mb = some m → m ≠ 0 →
      ["--mem", Nat.repr m] <:+:
        peterMacNewCommand st wid command logsdir config := by
    intro m hm hm0
    refine ⟨["sbatch", "-p", joinIfList ", " (.str "janis"), "-J", "janis-" ++ wid,
      "--time", Nat.repr (pyOrNat st.max_workflow_time 14400), "-o",
      osPathJoin logsdir "slurm.stdout", "-e", osPathJoin logsdir "slurm.stderr"]
      ++ peterMacMailArgs st.send_job_emails config,
      ["--wrap", joinIfList " " command], ?_⟩
    simp [peterMacNewCommand, peterMacMemArgs, hm, hm0]
  constructor
  · constructor
    · intro ⟨m, hinf⟩
      by_contra hnc
      have hnil : peterMacMemArgs st.janis_memory_mb = [] :=
        peterMacMemArgs_nil_of _ hnc
      simp only [peterMacNewCommand, hnil, joinIfList, List.cons_append,
        List.nil_append, List.append_nil] at hinf
      have h2 := pair_step_ne_fst hinf (by decide)
      have h2 := pair_step_ne_fst h2 (by decide)
      have h2 := pair_step_ne_fst h2 (by decide)
      have h2 := pair_step_ne_fst h2 (by decide)
      have h2 := pair_step_ne_snd h2 (head_ne_natRepr '-' (by decide) (by decide) m)
      have h2 := pair_step_ne_fst h2 (by decide)
      have h2 := pair_step_ne_fst h2 (natRepr_ne '-' (by decide) (by decide) _)
      have h2 := pair_step_ne_fst h2 (by decide)
      have h2 := pair_step_ne_snd h2 (head_ne_natRepr '-' (by decide) (by decide) m)
      have h2 := pair_step_ne_fst h2 (by decide)
      rcases peterMacMailArgs_cases st.send_job_emails config with hml | ⟨e, hml⟩
      · rw [hml] at h2
        simp only [List.nil_append] at h2
        have h2 := pair_step_ne_snd h2 (head_ne_natRepr '-' (by decide) (by decide) m)
        have h2 := pair_step_ne_fst h2 (by decide)
        exact pair_not_singleton h2
      · rw [hml] at h2
        simp only [List.cons_append, List.nil_append] at h2
        have h2 := pair_step_ne_snd h2 (head_ne_natRepr '-' (by decide) (by decide) m)
        have h2 := pair_step_ne_fst h2 (by decide)
        have h2 := pair_step_ne_snd h2 (head_ne_natRepr '-' (by decide) (by decide) m)
        have h2 := pair_step_ne_fst h2 (by decide)
        have h2 := pair_step_ne_snd h2 (head_ne_natRepr '-' (by decide) (by decide) m)
        have h2 := pair_step_ne_fst h2 (by decide)
        exact pair_not_singleton h2
    · rintro ⟨m, hm, hm0⟩
      exact ⟨m, key m hm hm0⟩
  · exact key

/-- C6 witness: at a concrete state with a 1000 MB override, the memory
block with the rendered value is in the built vector. -/
theorem peterMac_mem_block_iff_witness :
    ["--mem", Nat.repr 1000] <:+:
      peterMacNewCommand ⟨false, none, some 1000⟩ "w2" (.list ["run.sh"]) "/logs" none :=
  (peterMac_mem_block_iff ⟨false, none, some 1000⟩ "w2" (.list ["run.sh"]) "/logs"
    none).2 1000 rfl (by decide)

/-- C1: for every wid, token-list command and logsdir, each of the three
`submit_detatched_resume` argument vectors is the fixed prefix
`sbatch -p <resolved queue> -J janis-<wid> --time <duration>
-o <logsdir>/slurm.stdout -e <logsdir>/slurm.stderr`, then (possibly
empty) optional blocks, and finally `--wrap` followed by the command
tokens joined with single spaces. -/
theorem submit_argument_vector_order (wid logsdir : String) (toks : List String) :
    (∀ (st : PeterMacState) (config : Option JanisConfig), ∃ mid,
      peterMacNewCommand st wid (.list toks) logsdir config =
        ["sbatch", "-p", "janis", "-J", "janis-" ++ wid,
         "--time", Nat.repr (pyOrNat st.max_workflow_time 14400),
         "-o", osPathJoin logsdir "slurm.stdout",
         "-e", osPathJoin logsdir "slurm.stderr"]
        ++ mid ++ ["--wrap", String.intercalate " " toks]) ∧
    (∀ st : PawseyDiscState, ∃ mid,
      pawseyNewCommand st wid (.list toks) logsdir =
        ["sbatch", "-p", pyOrStr st.submission_queue (joinIfList ", " st.queues),
         "-J", "janis-" ++ wid, "--time", "4-00:00:00",
         "-o", osPathJoin logsdir "slurm.stdout",
         "-e", osPathJoin logsdir "slurm.stderr"]
        ++ mid ++ ["--wrap", String.intercalate " " toks]) ∧
    (∀ t : Option Nat, ∃ mid,
      peterMacDiscNewCommand t wid (.list toks) logsdir =
        ["sbatch", "-p", "janis", "-J", "janis-" ++ wid,
         "--time", Nat.repr (pyOrNat t 1440),
         "-o", osPathJoin logsdir "slurm.stdout",
         "-e", osPathJoin logsdir "slurm.stderr"]
        ++ mid ++ ["--wrap", String.intercalate " " toks]) := by
  refine ⟨fun st config => ?_, fun st => ?_, fun t => ?_⟩
  · exact ⟨peterMacMailArgs st.send_job_emails config ++ peterMacMemArgs st.janis_memory_mb,
      by simp [peterMacNewCommand, joinIfList, List.append_assoc]⟩
  · exact ⟨[], by simp [pawseyNewCommand, joinIfList]⟩
  · exact ⟨[], by simp [peterMacDiscNewCommand, joinIfList]⟩

/-- C10: the partition flag and value built by
`PeterMacTemplate.submit_detatched_resume` and
`PeterMacDisconnectedTemplate.submit_detatched_resume` are always
`-p janis`, independent of state, configuration and inputs. -/
theorem peterMac_partition_is_janis (st : PeterMacState) (wid : String)
    (command : PyStrOrList) (logsdir : String) (config : Option JanisConfig)
    (t : Option Nat) :
    (peterMacNewCommand st wid command logsdir config)[1]? = some "-p" ∧
    (peterMacNewCommand st wid command logsdir config)[2]? = some "janis" ∧
    (peterMacDiscNewCommand t wid command logsdir)[1]? = some "-p" ∧
    (peterMacDiscNewCommand t wid command logsdir)[2]? = some "janis" :=
  ⟨rfl, rfl, rfl, rfl⟩

/-- C7: in `PawseyDisconnectedTemplate.submit_detatched_resume`, a truthy
submission-queue override is the `-p` value regardless of the configured
queues; otherwise the `-p` value is the queue list joined with `", "` when
it is a list, or the queue string itself. -/
theorem pawsey_queue_resolution (st : PawseyDiscState) (wid : String)
    (command : PyStrOrList) (logsdir : String) :
    (∀ s, st.submission_queue = some s → s ≠ "" →
      (pawseyNewCommand st wid command logsdir)[2]? = some s) ∧
    ((st.submission_queue = none ∨ st.submission_queue = some "") →
      (pawseyNewCommand st wid command logsdir)[2]? =
        some (match st.queues with
          | .str q => q
          | .list l => String.intercalate ", " l)) := by
  obtain ⟨q, sq⟩ := st
  constructor
  · intro s hs hne
    simp only at hs
    subst hs
    simp [pawseyNewCommand, pyOrStr, hne]
  · intro hs
    rcases hs with hs | hs <;> simp only at hs <;> subst hs <;>
      cases q <;> simp [pawseyNewCommand, pyOrStr, joinIfList]

/-- C7 witness: with configured queues `["workq", "extra"]` and override
`"longq"`, the built partition is the override. -/
theorem pawsey_queue_resolution_witness :
    (pawseyNewCommand ⟨.list ["workq", "extra"], some "longq"⟩ "w3" (.str "cmd")
      "/logs")[2]? = some "longq" :=
  (pawsey_queue_resolution ⟨.list ["workq", "extra"], some "longq"⟩ "w3" (.str "cmd")
    "/logs").1 "longq" rfl (by decide)

/-- C8: for a non-empty singularity version string `v` the module-load
instruction is `"module load singularity/" ++ v`, and for version `None`
it is `"module load singularity"`. -/
theorem singularity_load_instruction (v : String) (hv : v ≠ "") :
    singload (some v) = "module load singularity/" ++ v ∧
    singload none = "module load singularity" := by
  refine ⟨?_, rfl⟩
  simp only [singload, if_neg hv]
  rfl

/-- C8 witness: instantiated at version `"3.4.0"`. -/
theorem singularity_load_instruction_witness :
    singload (some "3.4.0") = "module load singularity/" ++ "3.4.0" ∧
    singload none = "module load singularity" :=
  singularity_load_instruction "3.4.0" (by decide)

theorem strContains_self (s : String) : strContains s s :=
  ⟨[], [], by simp⟩

theorem strContains_appendL (a b sub : String) (h : strContains b sub) :
    strContains (a ++ b) sub := by
  obtain ⟨s, t, hst⟩ := h
  refine ⟨a.data ++ s, t, ?_⟩
  rw [strData_append, ← hst]
  simp [List.append_assoc]

theorem strContains_appendR (a b sub : String) (h : strContains a sub) :
    strContains (a ++ b) sub := by
  obtain ⟨s, t, hst⟩ := h
  refine ⟨s, t ++ b.data, ?_⟩
  rw [strData_append, ← hst]
  simp [List.append_assoc]

/-- C3: constructing a `PeterMacTemplate` passes the email-format check
exactly for `email_format` in `{None, "molpath"}`; any other value raises
at construction with a message that names the rejected value and lists the
valid choices `'None'` and `'molpath'`. -/
theorem peterMac_email_format_check (fmt : Option String) :
    (validateEmailFormat fmt = Except.ok () ↔ (fmt = none ∨ fmt = some "molpath")) ∧
    (fmt ≠ none → fmt ≠ some "molpath" →
      validateEmailFormat fmt = Except.error (emailFormatErrorMessage fmt) ∧
      strContains (emailFormatErrorMessage fmt) (pyStrOpt fmt) ∧
      strContains (emailFormatErrorMessage fmt) "\x27None\x27" ∧
      strContains (emailFormatErrorMessage fmt) "\x27molpath\x27") := by
  constructor
  · constructor
    · intro hok
      by_contra hne
      push_neg at hne
      have hmem : fmt ∉ expected_email_format := by
        simp [expected_email_format, hne.1, hne.2]
      rw [validateEmailFormat, if_neg hmem] at hok
      exact Except.noConfusion hok
    · intro h
      have hmem : fmt ∈ expected_email_format := by
        rcases h with rfl | rfl <;> simp [expected_email_format]
      rw [validateEmailFormat, if_pos hmem]
  · intro h1 h2
    have hmem : fmt ∉ expected_email_format := by
      simp [expected_email_format, h1, h2]
    have hV1 : validOptionsFormatted = "\x27None\x27" ++ ", \x27molpath\x27" := by decide
    have hV2 : validOptionsFormatted = "\x27None\x27, " ++ "\x27molpath\x27" := by decide
    refine ⟨by rw [validateEmailFormat, if_neg hmem], ?_, ?_, ?_⟩
    · show strContains ("Argument email_format: invalid choice: \x27" ++ pyStrOpt fmt
        ++ "\x27 (choose from " ++ validOptionsFormatted ++ ")") (pyStrOpt fmt)
      exact strContains_appendR _ _ _ (strContains_appendR _ _ _
        (strContains_appendR _ _ _ (strContains_appendL _ _ _ (strContains_self _))))
    · show strContains ("Argument email_format: invalid choice: \x27" ++ pyStrOpt fmt
        ++ "\x27 (choose from " ++ validOptionsFormatted ++ ")") "\x27None\x27"
      refine strContains_appendR _ _ _ (strContains_appendL _ _ _ ?_)
      rw [hV1]
      exact strContains_appendR _ _ _ (strContains_self _)
    · show strContains ("Argument email_format: invalid choice: \x27" ++ pyStrOpt fmt
        ++ "\x27 (choose from " ++ validOptionsFormatted ++ ")") "\x27molpath\x27"
      refine strContains_appendR _ _ _ (strContains_appendL _ _ _ ?_)
      rw [hV2]
      exact strContains_appendL _ _ _ (strContains_self _)

/-- C3 witness: the rejected value `"plain"` produces the error message,
which names it and lists both valid choices. -/
theorem peterMac_email_format_check_witness :
    validateEmailFormat (some "plain") = Except.error (emailFormatErrorMessage (some "plain")) ∧
    strContains (emailFormatErrorMessage (some "plain")) (pyStrOpt (some "plain")) ∧
    strContains (emailFormatErrorMessage (some "plain")) "\x27None\x27" ∧
    strContains (emailFormatErrorMessage (some "plain")) "\x27molpath\x27" :=
  (peterMac_email_format_check (some "plain")).2 (by decide) (by decide)

/-- C4: the `super().__init__` call of `PawseyDisconnectedTemplate.__init__`
leaves the defaultless `containerDir` parameter of
`PawseyTemplate.__init__` unbound, and the `super().__init__` call of
`PeterMacDisconnectedTemplate.__init__` passes the keyword `executionDir`
that `PeterMacTemplate.__init__` does not accept; both therefore raise
`TypeError` for every argument combination, since the keyword names are
fixed in the source independently of argument values. -/
theorem disconnected_constructor_binding_fails :
    bindKwargs pawseyTemplateInitParams pawseyDisconnectedSuperInitKwargs =
      Except.error "missing a required argument: \x27containerDir\x27" ∧
    bindKwargs peterMacTemplateInitParams peterMacDisconnectedSuperInitKwargs =
      Except.error "unexpected keyword argument \x27executionDir\x27" :=
  ⟨rfl, rfl⟩

/-- C2: only `PeterMacTemplate.submit_detatched_resume` delegates to the
base class's `submit_detatched_resume`; the Pawsey and PeterMac
disconnected variants instead invoke the base-class constructor
(`super().__init__`) with keywords (`wid`, `command`, `capture_output`)
that neither `PawseyTemplate.__init__` nor `PeterMacTemplate.__init__`
accepts, so their submission call raises `TypeError` instead of
delegating. -/
theorem submit_delegation_targets :
    peterMacSubmitDelegation = ⟨DelegationTarget.baseSubmitDetatchedResume, true⟩ ∧
    pawseyDiscSubmitDelegation = ⟨DelegationTarget.baseConstructor, true⟩ ∧
    peterMacDiscSubmitDelegation = ⟨DelegationTarget.baseConstructor, true⟩ ∧
    pawseyDiscSubmitDelegation.target ≠ DelegationTarget.baseSubmitDetatchedResume ∧
    peterMacDiscSubmitDelegation.target ≠ DelegationTarget.baseSubmitDetatchedResume ∧
    bindKwargs pawseyTemplateInitParams disconnectedSubmitSuperCallKwargs =
      Except.error "unexpected keyword argument \x27wid\x27" ∧
    bindKwargs peterMacTemplateInitParams disconnectedSubmitSuperCallKwargs =
      Except.error "unexpected keyword argument \x27wid\x27" :=
  ⟨rfl, rfl, rfl, by decide, by decide, rfl, rfl⟩

/-- C9: for a status that is not in a final state and a run whose inputs
contain no entry tagged `"seqrun"`, `prepare_run_status_table` returns the
empty string. -/
theorem run_status_table_empty (status : TaskStatus) (run : RunModel)
    (hfinal : status.is_in_final_state = false)
    (hseq : ∀ i ∈ run.inputs, i.tag ≠ "seqrun") :
    prepare_run_status_table status run = "" := by
  have hget : inputsGet run.inputs "seqrun" = none := by
    unfold inputsGet
    have hf : run.inputs.reverse.find? (fun i => i.tag == "seqrun") = none :=
      List.find?_eq_none.mpr (fun i hi => by simpa using hseq i (List.mem_reverse.mp hi))
    rw [hf]
    rfl
  simp [prepare_run_status_table, hfinal, hget]
  rfl

/-- C9 witness: a non-final status and a run with a single non-seqrun
input yield the empty string. -/
theorem run_status_table_empty_witness :
    prepare_run_status_table ⟨false, "#000000", "running"⟩
      ⟨[⟨"other", .str "x"⟩], []⟩ = "" :=
  run_status_table_empty ⟨false, "#000000", "running"⟩ ⟨[⟨"other", .str "x"⟩], []⟩
    rfl (by decide)
